import Mathlib

/-!
Verification of the pricing, itinerary-distance, booking-wizard and checkout
logic of a charter-booking web application.

The development shallowly embeds the relevant program fragments:

* the haversine itinerary-distance function `calculateTotalDistance`
  (real-valued trigonometry, with JavaScript truthiness of the latitude
  field modelled on `Option ℝ`: a latitude is "falsy" when it is absent
  or equal to `0`);
* the pricing aggregation (`SERVICE_PRICES`, `getAdditionalServicesCost`,
  `totalPrice`, `minPrice`, `maxPrice`, `formatPrice`) over `ℚ`,
  with decimal source literals read as exact rationals;
* the two multi-step wizards (the booking summary and the checkout form),
  their `nextStep` / `prevStep` transitions and field-presence validation;
* the payment-routing logic `handlePayment` of the checkout form;
* the checkout-session creation endpoint `POST` with its required-field
  check, the external payment provider being modelled by a success flag.

Numeric-display conventions: `Math.round` is `⌊x + 1/2⌋`; the currency
formatter with zero fraction digits rounds half away from zero.
-/

/-- A location as used by the distance computation: the source type has an
`address` plus numeric `lat` / `lng` fields.  The latitude is modelled as
`Option ℝ` because the code guards on its JavaScript truthiness (`undefined`
and `0` are both falsy); the longitude is never guarded by the code and is
modelled as a plain real number. -/
structure Location where
  address : String
  lat : Option ℝ
  lng : ℝ

/-- Default location used for out-of-range list indexing in the loop model. -/
def defaultLocation : Location := { address := "", lat := none, lng := 0 }

/-- JavaScript falsiness of the `lat` field: absent or zero. -/
def latFalsy (p : Location) : Prop := p.lat = none ∨ p.lat = some 0

/-- Numeric value of the latitude where the code reads it (only ever read
under a truthiness guard, so the default is never observable). -/
def latVal (p : Location) : ℝ := p.lat.getD 0

/-- JavaScript `Math.atan2 y x` over the reals (signed zeroes and NaN are
outside the model). -/
noncomputable def atan2 (y x : ℝ) : ℝ :=
  if 0 < x then Real.arctan (y / x)
  else if x < 0 then Real.arctan (y / x) + (if 0 ≤ y then Real.pi else -Real.pi)
  else if 0 < y then Real.pi / 2
  else if y < 0 then -(Real.pi / 2)
  else 0

/-- One haversine segment of the loop body of `calculateTotalDistance`:
Earth radius 6371 km, `R * c` with
`c = 2 * atan2 (sqrt a) (sqrt (1 - a))`. -/
noncomputable def hav (p q : Location) : ℝ :=
  let dLat := (latVal q - latVal p) * Real.pi / 180
  let dLon := (q.lng - p.lng) * Real.pi / 180
  let a := Real.sin (dLat / 2) * Real.sin (dLat / 2) +
    Real.cos (latVal p * Real.pi / 180) * Real.cos (latVal q * Real.pi / 180) *
    (Real.sin (dLon / 2) * Real.sin (dLon / 2))
  6371 * (2 * atan2 (Real.sqrt a) (Real.sqrt (1 - a)))

open Classical in
/-- Contribution of one consecutive pair in the loop: the pair is skipped
(`continue`) when either endpoint has a falsy latitude. -/
noncomputable def segContrib (p q : Location) : ℝ :=
  if latFalsy p ∨ latFalsy q then 0 else hav p q

/-- The loop `for (i = 0; i < points.length - 1; i++)` accumulating the
segment contributions, indexed exactly as in the source. -/
noncomputable def rawTotal (pts : List Location) : ℝ :=
  ∑ i ∈ Finset.range (pts.length - 1),
    segContrib (pts.getD i defaultLocation) (pts.getD (i + 1) defaultLocation)

/-- Sum of the segment contributions over consecutive pairs, by structural
recursion on the point list (the specification-shaped reformulation of the
index loop). -/
noncomputable def pairSum : List Location → ℝ
  | p :: q :: rest => segContrib p q + pairSum (q :: rest)
  | _ => 0

/-- JavaScript `Math.round`: floor of `x + 1/2`, as an integer. -/
noncomputable def jsMathRound (x : ℝ) : ℤ := ⌊x + 1 / 2⌋

open Classical in
/-- The source function `calculateTotalDistance`: returns `0` outright when
the origin or the destination has a falsy latitude, otherwise sums the
haversine segments over `[origin, ...stops, destination]`, doubles the sum
when `isReturn` holds, and rounds to the nearest integer kilometre. -/
noncomputable def calculateTotalDistance (origin : Location) (stops : List Location)
    (destination : Location) (isReturn : Bool) : ℤ :=
  if latFalsy origin ∨ latFalsy destination then 0
  else
    jsMathRound
      (if isReturn then rawTotal (origin :: stops ++ [destination]) * 2
       else rawTotal (origin :: stops ++ [destination]))

open Classical in
/-- Per-pair contribution exactly as the words of claim C3 describe it: a
pair contributes a zero-length segment precisely when either endpoint is
missing its latitude (an absent — not zero — coordinate; in this model the
longitude is always present). -/
noncomputable def claimedSegContrib (p q : Location) : ℝ :=
  if p.lat = none ∨ q.lat = none then 0 else hav p q

/-- Sum over consecutive pairs per the words of claim C3. -/
noncomputable def claimedPairSum : List Location → ℝ
  | p :: q :: rest => claimedSegContrib p q + claimedPairSum (q :: rest)
  | _ => 0

/-- The distance function exactly as the words of claim C3 describe it: sum
the haversine distances over consecutive pairs of
`[origin, ...stops, destination]`, with missing-latitude pairs contributing
zero-length segments, doubled on a round trip, rounded to the nearest
integer — with no outright-zero guard on the origin and destination. -/
noncomputable def claimedDistance (origin : Location) (stops : List Location)
    (destination : Location) (isReturn : Bool) : ℤ :=
  jsMathRound
    ((if isReturn then 2 else 1) * claimedPairSum (origin :: stops ++ [destination]))

/-- A display currency: code, symbol and multiplier rate against the base
currency (EUR = 1). -/
structure Currency where
  code : String
  symbol : String
  rate : ℚ
deriving DecidableEq

/-- The static four-entry currency table of the booking summary. -/
def currencies : List Currency :=
  [ { code := "EUR", symbol := "€", rate := 1 },
    { code := "USD", symbol := "$", rate := 1.08 },
    { code := "GBP", symbol := "£", rate := 0.85 },
    { code := "CHF", symbol := "CHF", rate := 0.95 } ]

/-- Initial selected currency: `currencies[0]`. -/
def initialCurrency : Currency := currencies.getD 0 { code := "", symbol := "", rate := 0 }

/-- The set of selected optional services, one flag per catalog entry. -/
structure SelectedServices where
  airportTransfer : Bool
  catering : Bool
  concierge : Bool
  hotelBooking : Bool
deriving DecidableEq

/-- The fixed service price catalog, field for field as in the source. -/
structure ServicePriceTable where
  airportTransfer : ℚ
  catering : ℚ
  concierge : ℚ
  hotelBooking : ℚ

/-- `SERVICE_PRICES` from the source. -/
def SERVICE_PRICES : ServicePriceTable :=
  { airportTransfer := 250, catering := 350, concierge := 200, hotelBooking := 150 }

/-- `getAdditionalServicesCost`: sequential accumulation, one conditional
addition per selected flag, mirroring the source statement order. -/
def getAdditionalServicesCost (s : SelectedServices) : ℚ :=
  let t0 : ℚ := 0
  let t1 := if s.airportTransfer then t0 + SERVICE_PRICES.airportTransfer else t0
  let t2 := if s.catering then t1 + SERVICE_PRICES.catering else t1
  let t3 := if s.concierge then t2 + SERVICE_PRICES.concierge else t2
  if s.hotelBooking then t3 + SERVICE_PRICES.hotelBooking else t3

/-- `totalPrice = basePrice + additionalServicesCost`. -/
def totalPrice (basePrice : ℚ) (s : SelectedServices) : ℚ :=
  basePrice + getAdditionalServicesCost s

/-- `minPrice = Math.floor(basePrice * 0.9)`. -/
def minPrice (basePrice : ℚ) : ℤ := ⌊basePrice * (0.9 : ℚ)⌋

/-- `maxPrice = Math.ceil(basePrice * 1.1)`. -/
def maxPrice (basePrice : ℚ) : ℤ := ⌈basePrice * (1.1 : ℚ)⌉

/-- Rounding half away from zero, the rounding mode applied by the number
formatter when it renders with zero fraction digits. -/
def roundHalfExpand (q : ℚ) : ℤ := if 0 ≤ q then ⌊q + 1 / 2⌋ else -⌊-q + 1 / 2⌋

/-- `formatPrice`: converts by the currency rate and renders with zero
fraction digits; modelled as the integer numeral that is rendered (the
symbol placement is not modelled). -/
def formatPrice (price : ℚ) (currency : Currency) : ℤ :=
  roundHalfExpand (price * currency.rate)

/-- `priceRange`: the displayed pair of formatted bounds
`formatPrice(minPrice) - formatPrice(maxPrice)`. -/
def priceRange (basePrice : ℚ) (currency : Currency) : ℤ × ℤ :=
  (formatPrice ((minPrice basePrice : ℤ) : ℚ) currency,
   formatPrice ((maxPrice basePrice : ℤ) : ℚ) currency)

/-- Contact information collected by the booking summary. -/
structure ContactInfo where
  name : String
  email : String
  phone : String
  specialRequests : String
deriving DecidableEq

/-- A wizard interaction: pressing the forward or the backward button. -/
inductive WizardMove where
  | next
  | back
deriving DecidableEq

namespace BookingSummary

/-- `totalSteps`, derived from the stops as the effect sets it:
4 when stops are present, else 3. -/
def totalSteps (stops : List Location) : ℕ := if stops.length > 0 then 4 else 3

/-- `nextStep`: advance while below `totalSteps`. -/
def nextStep (ts : ℕ) (step : ℕ) : ℕ := if step < ts then step + 1 else step

/-- `prevStep` on the step number alone: retreat while above 1, else stay
(at step 1 the code instead calls the external cancel callback). -/
def prevStep (step : ℕ) : ℕ := if 1 < step then step - 1 else step

/-- One wizard transition on the step number. -/
def stepAfter (ts : ℕ) (step : ℕ) : WizardMove → ℕ
  | .next => nextStep ts step
  | .back => prevStep step

/-- The step reached from the initial step 1 after a sequence of moves. -/
def runWizard (ts : ℕ) (moves : List WizardMove) : ℕ :=
  moves.foldl (stepAfter ts) 1

/-- The wizard state touched by `prevStep`: the current step plus the rest
of the component state it could in principle mutate. -/
structure State where
  currentStep : ℕ
  selectedCurrency : Currency
  selectedServices : SelectedServices
  contactInfo : ContactInfo
  showCheckout : Bool
deriving DecidableEq

/-- Full-state `prevStep`: above step 1 it only decrements the step; at
step 1 it leaves the state alone and invokes the external cancel callback
`onBack`.  The second component counts the `onBack` invocations. -/
def prevStepFull (s : State) : State × ℕ :=
  if 1 < s.currentStep then ({ s with currentStep := s.currentStep - 1 }, 0)
  else (s, 1)

end BookingSummary

namespace CheckoutForm

/-- The form data of the checkout form. -/
structure FormData where
  name : String
  email : String
  phone : String
  specialRequests : String
  additionalServices : SelectedServices
deriving DecidableEq

/-- The checkout-form state touched by its step transitions. -/
structure State where
  currentStep : ℕ
  formData : FormData
  loading : Bool
deriving DecidableEq

/-- `isFormValid`: at step 1 all of name, email and phone must be
non-empty (JavaScript string truthiness); other steps are always valid. -/
def isFormValid (s : State) : Bool :=
  if s.currentStep = 1 then
    s.formData.name != "" && s.formData.email != "" && s.formData.phone != ""
  else true

/-- `nextStep` on the step number alone: advance while below 2 (at step 2
the code instead submits the payment, leaving the step unchanged). -/
def nextStep (step : ℕ) : ℕ := if step < 2 then step + 1 else step

/-- `prevStep` on the step number alone: retreat while above 1, else stay
(at step 1 the code instead calls the external close callback). -/
def prevStep (step : ℕ) : ℕ := if 1 < step then step - 1 else step

/-- One checkout-form transition on the step number. -/
def stepAfter (step : ℕ) : WizardMove → ℕ
  | .next => nextStep step
  | .back => prevStep step

/-- The step reached from the initial step 1 after a sequence of moves. -/
def runWizard (moves : List WizardMove) : ℕ := moves.foldl stepAfter 1

/-- The forward button as the user can actually press it: it is disabled
while loading or while `isFormValid` fails, and otherwise runs `nextStep`
(which at step 2 submits instead of advancing). -/
def nextStepClick (s : State) : State :=
  if s.loading || !isFormValid s then s
  else if s.currentStep < 2 then { s with currentStep := s.currentStep + 1 }
  else s

/-- Full-state `prevStep` of the checkout form, with the `onClose`
invocation count as second component. -/
def prevStepFull (s : State) : State × ℕ :=
  if 1 < s.currentStep then ({ s with currentStep := s.currentStep - 1 }, 0)
  else (s, 1)

/-- The offer kinds admitted by the checkout form's props. -/
inductive OfferType where
  | fixed_offer
  | empty_leg
  | visa
deriving DecidableEq

/-- The observable outcome of `handlePayment`: the validation early-return,
a hosted checkout-session start, or a human-review quote request. -/
inductive PaymentAction where
  | validationFail
  | checkoutSession
  | quoteRequest
deriving DecidableEq

/-- `handlePayment`: validates field presence, then routes fixed offers
with a non-`custom-` identifier and empty legs to the checkout session,
and everything else to the quote request. -/
def handlePayment (fd : FormData) (offerType : OfferType) (offerId : String) :
    PaymentAction :=
  if fd.name = "" ∨ fd.email = "" ∨ fd.phone = "" then .validationFail
  else if offerType = .fixed_offer ∧ ¬ String.startsWith offerId ("custom-") then
    .checkoutSession
  else if offerType = .empty_leg then .checkoutSession
  else .quoteRequest

end CheckoutForm

/-- The JSON body of the checkout-session creation request, each field
possibly absent. -/
structure SessionRequest where
  tierId : Option String
  tierType : Option String
  price : Option ℚ
  currency : Option String
  name : Option String
  email : Option String

/-- JavaScript falsiness of an optional string: absent or empty. -/
def strFalsy : Option String → Bool
  | none => true
  | some s => s.isEmpty

/-- JavaScript falsiness of an optional number: absent or zero. -/
def numFalsy : Option ℚ → Bool
  | none => true
  | some q => q = 0

/-- The checkout session mode chosen by the endpoint. -/
inductive SessionMode where
  | oneTime
  | subscription
deriving DecidableEq

/-- The endpoint response: an error with an HTTP status, or a created
session. -/
inductive ApiResponse where
  | errorResponse (status : ℕ)
  | sessionResponse (mode : SessionMode)
deriving DecidableEq

/-- The `POST` route handler: rejects with 400 when any required field is
falsy, otherwise creates a one-time session exactly for the sentinel tier
identifier and a subscription session otherwise.  The external payment
provider is modelled by the `providerOk` flag; its failure is the 500
catch-all. -/
def POST (providerOk : Bool) (r : SessionRequest) : ApiResponse :=
  if strFalsy r.tierId || numFalsy r.price || strFalsy r.currency ||
      strFalsy r.name || strFalsy r.email then
    .errorResponse 400
  else if !providerOk then .errorResponse 500
  else if r.tierId = some ("partner-lifetime") then .sessionResponse .oneTime
  else .sessionResponse .subscription

lemma bs_run_bounds (ts : ℕ) (hts : 1 ≤ ts) (moves : List WizardMove) :
    ∀ s, 1 ≤ s → s ≤ ts →
      1 ≤ List.foldl (BookingSummary.stepAfter ts) s moves ∧
      List.foldl (BookingSummary.stepAfter ts) s moves ≤ ts := by
  induction moves with
  | nil => intro s h1 h2; simpa using ⟨h1, h2⟩
  | cons m rest ih =>
    intro s h1 h2
    simp only [List.foldl_cons]
    have hb : 1 ≤ BookingSummary.stepAfter ts s m ∧ BookingSummary.stepAfter ts s m ≤ ts := by
      cases m
      · simp only [BookingSummary.stepAfter, BookingSummary.nextStep]
        split <;> omega
      · simp only [BookingSummary.stepAfter, BookingSummary.prevStep]
        split <;> omega
    exact ih _ hb.1 hb.2

lemma cf_run_bounds (moves : List WizardMove) :
    ∀ s, 1 ≤ s → s ≤ 2 →
      1 ≤ List.foldl CheckoutForm.stepAfter s moves ∧
      List.foldl CheckoutForm.stepAfter s moves ≤ 2 := by
  induction moves with
  | nil => intro s h1 h2; simpa using ⟨h1, h2⟩
  | cons m rest ih =>
    intro s h1 h2
    simp only [List.foldl_cons]
    have hb : 1 ≤ CheckoutForm.stepAfter s m ∧ CheckoutForm.stepAfter s m ≤ 2 := by
      cases m
      · simp only [CheckoutForm.stepAfter, CheckoutForm.nextStep]
        split <;> omega
      · simp only [CheckoutForm.stepAfter, CheckoutForm.prevStep]
        split <;> omega
    exact ih _ hb.1 hb.2

/-- Claim C1, counterexample: the displayed lower bound is computed from
the base price alone, so with base price 1000 and the airport-transfer
service selected the code shows `floor(1000 * 0.9) = 900` while the claim
requires `floor((1000 + 250) * 0.9) = 1125`. -/
theorem minPrice_ignores_services_cex :
    minPrice 1000 = 900 ∧
    ⌊totalPrice 1000
        { airportTransfer := true, catering := false, concierge := false,
          hotelBooking := false } * (9 / 10 : ℚ)⌋ = 1125 ∧
    minPrice 1000 ≠
      ⌊totalPrice 1000
          { airportTransfer := true, catering := false, concierge := false,
            hotelBooking := false } * (9 / 10 : ℚ)⌋ := by
  norm_num [minPrice, totalPrice, getAdditionalServicesCost, SERVICE_PRICES]

/-- Claim C1, amended: the displayed estimate range has lower bound
`floor(basePrice * 0.9)` and upper bound `ceil(basePrice * 1.1)` computed
from the base itinerary price alone — equivalently from the total minus the
service cost — before currency conversion, and the displayed range is the
currency-converted rendering of those two bounds. -/
theorem priceRange_from_base_price (b : ℚ) (s : SelectedServices) (c : Currency) :
    minPrice b = ⌊(totalPrice b s - getAdditionalServicesCost s) * (9 / 10 : ℚ)⌋ ∧
    maxPrice b = ⌈(totalPrice b s - getAdditionalServicesCost s) * (11 / 10 : ℚ)⌉ ∧
    priceRange b c =
      (formatPrice ((minPrice b : ℤ) : ℚ) c, formatPrice ((maxPrice b : ℤ) : ℚ) c) := by
  have hbase : totalPrice b s - getAdditionalServicesCost s = b := by
    simp [totalPrice]
  refine ⟨?_, ?_, rfl⟩
  · rw [hbase]; norm_num [minPrice]
  · rw [hbase]; norm_num [maxPrice]

/-- Claim C4: the displayed total equals the base price plus the sum of
the selected services' catalog prices (250, 350, 200, 150), converted by
the currency rate and rendered with zero fraction digits; with no service
selected the total is the base price, and with all four selected it is the
base price plus 950, in particular in the initial currency EUR whose rate
is 1. -/
theorem total_price_invariant (b : ℚ) (s : SelectedServices) (c : Currency) :
    formatPrice (totalPrice b s) c =
      roundHalfExpand ((b + ((if s.airportTransfer then (250 : ℚ) else 0) +
        (if s.catering then (350 : ℚ) else 0) +
        (if s.concierge then (200 : ℚ) else 0) +
        (if s.hotelBooking then (150 : ℚ) else 0))) * c.rate) ∧
    totalPrice b
        { airportTransfer := false, catering := false, concierge := false,
          hotelBooking := false } = b ∧
    totalPrice b
        { airportTransfer := true, catering := true, concierge := true,
          hotelBooking := true } = b + (250 + 350 + 200 + 150) ∧
    initialCurrency.rate = 1 ∧
    formatPrice
        (totalPrice b
          { airportTransfer := true, catering := true, concierge := true,
            hotelBooking := true }) initialCurrency =
      roundHalfExpand (b + 950) := by
  obtain ⟨a, ct, co, hb⟩ := s
  refine ⟨?_, ?_, ?_, rfl, ?_⟩
  · cases a <;> cases ct <;> cases co <;> cases hb <;>
      · simp only [formatPrice, totalPrice, getAdditionalServicesCost, SERVICE_PRICES,
          if_true, if_false]
        norm_num
  · norm_num [totalPrice, getAdditionalServicesCost]
  · norm_num [totalPrice, getAdditionalServicesCost, SERVICE_PRICES]
  · have h1 : initialCurrency.rate = 1 := rfl
    simp only [formatPrice, h1, mul_one]
    norm_num [totalPrice, getAdditionalServicesCost, SERVICE_PRICES]

/-- Claim C5: from the initial step 1, every sequence of next/back moves
keeps the current step within `[1, totalSteps]`, where the booking-summary
flow has 4 steps when stops are present and 3 otherwise, and the
checkout-form flow has 2 steps. -/
theorem wizard_step_in_bounds :
    (∀ (stops : List Location) (moves : List WizardMove),
      1 ≤ BookingSummary.runWizard (BookingSummary.totalSteps stops) moves ∧
      BookingSummary.runWizard (BookingSummary.totalSteps stops) moves ≤
        BookingSummary.totalSteps stops) ∧
    (∀ stops : List Location,
      BookingSummary.totalSteps stops = if stops.length = 0 then 3 else 4) ∧
    (∀ moves : List WizardMove,
      1 ≤ CheckoutForm.runWizard moves ∧ CheckoutForm.runWizard moves ≤ 2) := by
  refine ⟨?_, ?_, ?_⟩
  · intro stops moves
    have hts : 1 ≤ BookingSummary.totalSteps stops := by
      unfold BookingSummary.totalSteps
      split <;> omega
    exact bs_run_bounds _ hts moves 1 le_rfl hts
  · intro stops
    cases stops <;> simp [BookingSummary.totalSteps]
  · intro moves
    exact cf_run_bounds moves 1 le_rfl (by omega)

/-- Claim C6: after the field-presence validation passes, `handlePayment`
starts a hosted checkout session exactly for a fixed offer whose identifier
does not start with `custom-` and for an empty leg, and submits a
human-review quote request for every other offer kind / identifier
combination. -/
theorem payment_routing (fd : CheckoutForm.FormData) (t : CheckoutForm.OfferType)
    (offerId : String) (hn : fd.name ≠ "") (he : fd.email ≠ "") (hp : fd.phone ≠ "") :
    (CheckoutForm.handlePayment fd t offerId = .checkoutSession ↔
      (t = .fixed_offer ∧ ¬ String.startsWith offerId ("custom-")) ∨ t = .empty_leg) ∧
    (CheckoutForm.handlePayment fd t offerId = .quoteRequest ↔
      ¬ ((t = .fixed_offer ∧ ¬ String.startsWith offerId ("custom-")) ∨
          t = .empty_leg)) := by
  unfold CheckoutForm.handlePayment
  rw [if_neg (by simp [hn, he, hp])]
  by_cases hc : String.startsWith offerId ("custom-") <;> cases t <;> simp [hc]

/-- Witness for C6: a visa offer with a complete form is routed to the
quote request. -/
theorem payment_routing_witness :
    CheckoutForm.handlePayment
        { name := "A", email := "a@b.c", phone := "1", specialRequests := "",
          additionalServices :=
            { airportTransfer := false, catering := false, concierge := false,
              hotelBooking := false } }
        .visa ("x") = .quoteRequest :=
  (payment_routing _ _ _ (by decide) (by decide) (by decide)).2.mpr (by decide)

/-- Claim C7: a checkout-session creation request missing any of tierId,
price, currency, name or email is rejected with status 400 and no session
is created, whatever the external provider would have done. -/
theorem post_missing_field_rejected (ok : Bool) (r : SessionRequest)
    (h : r.tierId = none ∨ r.price = none ∨ r.currency = none ∨ r.name = none ∨
      r.email = none) :
    POST ok r = .errorResponse 400 ∧ ∀ m, POST ok r ≠ .sessionResponse m := by
  have hcond : (strFalsy r.tierId || numFalsy r.price || strFalsy r.currency ||
      strFalsy r.name || strFalsy r.email) = true := by
    rcases h with h | h | h | h | h <;> simp [h, strFalsy, numFalsy]
  refine ⟨?_, ?_⟩
  · simp [POST, hcond]
  · intro m
    simp [POST, hcond]

/-- Witness for C7: a request with no tierId is rejected with 400. -/
theorem post_missing_field_rejected_witness :
    POST true
        { tierId := none, tierType := some ("partner"), price := some 100,
          currency := some ("EUR"), name := some ("A"), email := some ("a@b.c") } =
      .errorResponse 400 :=
  (post_missing_field_rejected true _ (Or.inl rfl)).1

/-- Claim C8: in the two-step checkout form at step 1, the forward button
does not advance while any of name, email, phone is empty, and advances to
step 2 once all three are non-empty (and no submission is in flight). -/
theorem checkout_next_gating (s : CheckoutForm.State)
    (h1 : s.currentStep = 1) (h2 : s.loading = false) :
    ((s.formData.name = "" ∨ s.formData.email = "" ∨ s.formData.phone = "") →
      (CheckoutForm.nextStepClick s).currentStep = 1) ∧
    (s.formData.name ≠ "" → s.formData.email ≠ "" → s.formData.phone ≠ "" →
      (CheckoutForm.nextStepClick s).currentStep = 2) := by
  constructor
  · intro hemp
    have hv : CheckoutForm.isFormValid s = false := by
      simp only [CheckoutForm.isFormValid, h1, if_true]
      rcases hemp with h | h | h <;> simp [h]
    simp [CheckoutForm.nextStepClick, h2, hv, h1]
  · intro hn he hp
    have hv : CheckoutForm.isFormValid s = true := by
      simp [CheckoutForm.isFormValid, h1, hn, he, hp]
    simp [CheckoutForm.nextStepClick, h2, hv, h1]

/-- Witness for C8: a filled form at step 1 advances to step 2. -/
theorem checkout_next_gating_witness :
    (CheckoutForm.nextStepClick
        { currentStep := 1,
          formData :=
            { name := "A", email := "a@b.c", phone := "1", specialRequests := "",
              additionalServices :=
                { airportTransfer := false, catering := false, concierge := false,
                  hotelBooking := false } },
          loading := false }).currentStep = 2 :=
  (checkout_next_gating _ rfl rfl).2 (by decide) (by decide) (by decide)

/-- Claim C9: at step 1, the back transition of either wizard invokes its
external cancel collaborator exactly once and leaves the whole wizard state
unchanged. -/
theorem back_at_step_one (s : BookingSummary.State) (t : CheckoutForm.State)
    (hs : s.currentStep = 1) (ht : t.currentStep = 1) :
    BookingSummary.prevStepFull s = (s, 1) ∧ CheckoutForm.prevStepFull t = (t, 1) := by
  constructor
  · simp [BookingSummary.prevStepFull, hs]
  · simp [CheckoutForm.prevStepFull, ht]

/-- Witness for C9: concrete states at step 1 in both wizards. -/
theorem back_at_step_one_witness :
    BookingSummary.prevStepFull
        { currentStep := 1, selectedCurrency := initialCurrency,
          selectedServices :=
            { airportTransfer := false, catering := false, concierge := false,
              hotelBooking := false },
          contactInfo := { name := "", email := "", phone := "", specialRequests := "" },
          showCheckout := false } =
      ({ currentStep := 1, selectedCurrency := initialCurrency,
         selectedServices :=
           { airportTransfer := false, catering := false, concierge := false,
             hotelBooking := false },
         contactInfo := { name := "", email := "", phone := "", specialRequests := "" },
         showCheckout := false }, 1) ∧
    CheckoutForm.prevStepFull
        { currentStep := 1,
          formData :=
            { name := "", email := "", phone := "", specialRequests := "",
              additionalServices :=
                { airportTransfer := false, catering := false, concierge := false,
                  hotelBooking := false } },
          loading := false } =
      ({ currentStep := 1,
         formData :=
           { name := "", email := "", phone := "", specialRequests := "",
             additionalServices :=
               { airportTransfer := false, catering := false, concierge := false,
                 hotelBooking := false } },
         loading := false }, 1) :=
  back_at_step_one _ _ rfl rfl

lemma atan2_nonneg (y x : ℝ) (hy : 0 ≤ y) : 0 ≤ atan2 y x := by
  have hπ := Real.pi_pos
  have harct := Real.neg_pi_div_two_lt_arctan (y / x)
  unfold atan2
  by_cases h1 : 0 < x
  · rw [if_pos h1]
    have h := Real.arctan_strictMono.monotone (div_nonneg hy h1.le)
    rwa [Real.arctan_zero] at h
  · rw [if_neg h1]
    by_cases h2 : x < 0
    · rw [if_pos h2, if_pos hy]
      linarith
    · rw [if_neg h2]
      by_cases h3 : 0 < y
      · rw [if_pos h3]
        linarith
      · rw [if_neg h3, if_neg (not_lt.mpr hy)]

lemma hav_nonneg (p q : Location) : 0 ≤ hav p q := by
  simp only [hav]
  exact mul_nonneg (by norm_num)
    (mul_nonneg (by norm_num) (atan2_nonneg _ _ (Real.sqrt_nonneg _)))

lemma segContrib_nonneg (p q : Location) : 0 ≤ segContrib p q := by
  unfold segContrib
  split_ifs
  · exact le_refl 0
  · exact hav_nonneg p q

lemma rawTotal_nonneg (pts : List Location) : 0 ≤ rawTotal pts :=
  Finset.sum_nonneg fun _ _ => segContrib_nonneg _ _

lemma rawTotal_eq_pairSum : ∀ pts : List Location, rawTotal pts = pairSum pts
  | [] => by simp [rawTotal, pairSum]
  | [p] => by simp [rawTotal, pairSum]
  | p :: q :: rest => by
    have ih := rawTotal_eq_pairSum (q :: rest)
    have hlen : (p :: q :: rest).length - 1 = rest.length + 1 := by simp
    have hlen2 : (q :: rest).length - 1 = rest.length := by simp
    unfold rawTotal at ih ⊢
    rw [hlen2] at ih
    rw [hlen]
    rw [Finset.sum_range_succ']
    simp only [List.getD_cons_succ, List.getD_cons_zero]
    simp only [List.getD_cons_succ] at ih
    rw [ih, pairSum]
    ring

lemma floor_double_bound (t : ℝ) : |⌊2 * t + 1 / 2⌋ - 2 * ⌊t + 1 / 2⌋| ≤ 1 := by
  have h1 : (⌊t + 1 / 2⌋ : ℝ) ≤ t + 1 / 2 := Int.floor_le _
  have h2 : t + 1 / 2 < ⌊t + 1 / 2⌋ + 1 := Int.lt_floor_add_one _
  have h3 : (⌊2 * t + 1 / 2⌋ : ℝ) ≤ 2 * t + 1 / 2 := Int.floor_le _
  have h4 : 2 * t + 1 / 2 < ⌊2 * t + 1 / 2⌋ + 1 := Int.lt_floor_add_one _
  have hlow : 2 * ⌊t + 1 / 2⌋ - 2 < ⌊2 * t + 1 / 2⌋ := by
    have : ((2 * ⌊t + 1 / 2⌋ - 2 : ℤ) : ℝ) < ⌊2 * t + 1 / 2⌋ := by push_cast; linarith
    exact_mod_cast this
  have hhigh : ⌊2 * t + 1 / 2⌋ < 2 * ⌊t + 1 / 2⌋ + 2 := by
    have : ((⌊2 * t + 1 / 2⌋ : ℤ) : ℝ) < ((2 * ⌊t + 1 / 2⌋ + 2 : ℤ) : ℝ) := by
      push_cast; linarith
    exact_mod_cast this
  rw [abs_le]
  omega

lemma hav_same_lng (a b l : ℝ) (adr1 adr2 : String) (h0 : 0 ≤ b - a)
    (hlt : (b - a) * Real.pi / 360 < Real.pi / 2) :
    hav { address := adr1, lat := some a, lng := l }
        { address := adr2, lat := some b, lng := l } =
      6371 * ((b - a) * Real.pi / 180) := by
  have hπ := Real.pi_pos
  have hx0 : 0 ≤ (b - a) * Real.pi / 360 := by positivity
  have hxpi : (b - a) * Real.pi / 360 ≤ Real.pi := by linarith
  have hsin : 0 ≤ Real.sin ((b - a) * Real.pi / 360) :=
    Real.sin_nonneg_of_nonneg_of_le_pi hx0 hxpi
  have hcos : 0 < Real.cos ((b - a) * Real.pi / 360) :=
    Real.cos_pos_of_mem_Ioo ⟨by linarith, hlt⟩
  simp only [hav, latVal, Option.getD_some]
  have hdlon : (l - l) * Real.pi / 180 / 2 = 0 := by ring
  rw [hdlon, Real.sin_zero]
  have hdlat : (b - a) * Real.pi / 180 / 2 = (b - a) * Real.pi / 360 := by ring
  rw [hdlat]
  rw [mul_zero, mul_zero, add_zero]
  rw [Real.sqrt_mul_self hsin]
  have h1A : 1 - Real.sin ((b - a) * Real.pi / 360) * Real.sin ((b - a) * Real.pi / 360) =
      Real.cos ((b - a) * Real.pi / 360) * Real.cos ((b - a) * Real.pi / 360) := by
    have h := Real.sin_sq_add_cos_sq ((b - a) * Real.pi / 360)
    linear_combination -h
  rw [h1A, Real.sqrt_mul_self hcos.le]
  have hatan : atan2 (Real.sin ((b - a) * Real.pi / 360))
      (Real.cos ((b - a) * Real.pi / 360)) = (b - a) * Real.pi / 360 := by
    unfold atan2
    rw [if_pos hcos, ← Real.tan_eq_sin_div_cos]
    exact Real.arctan_tan (by linarith) hlt
  rw [hatan]
  ring

/-- Claim C10: a latitude equal to 0 is treated like an absent latitude —
when the origin's or the destination's latitude is 0 or undefined the
function returns 0 regardless of the stops, and every consecutive pair one
of whose endpoints has latitude 0 or undefined contributes a zero-length
segment, silently dropping an equator location from the itinerary
distance. -/
theorem equator_lat_dropped :
    (∀ (o : Location) (s : List Location) (d : Location) (r : Bool),
      o.lat = none ∨ o.lat = some 0 ∨ d.lat = none ∨ d.lat = some 0 →
      calculateTotalDistance o s d r = 0) ∧
    (∀ p q : Location,
      p.lat = none ∨ p.lat = some 0 ∨ q.lat = none ∨ q.lat = some 0 →
      segContrib p q = 0) := by
  constructor
  · intro o s d r h
    have hf : latFalsy o ∨ latFalsy d := by
      rcases h with h | h | h | h
      · exact Or.inl (Or.inl h)
      · exact Or.inl (Or.inr h)
      · exact Or.inr (Or.inl h)
      · exact Or.inr (Or.inr h)
    unfold calculateTotalDistance
    rw [if_pos hf]
  · intro p q h
    have hf : latFalsy p ∨ latFalsy q := by
      rcases h with h | h | h | h
      · exact Or.inl (Or.inl h)
      · exact Or.inl (Or.inr h)
      · exact Or.inr (Or.inl h)
      · exact Or.inr (Or.inr h)
    unfold segContrib
    rw [if_pos hf]

/-- Witness for C10: an origin exactly on the equator makes the whole
distance 0, and a pair whose second endpoint is on the equator contributes
nothing. -/
theorem equator_lat_dropped_witness :
    calculateTotalDistance { address := "", lat := some 0, lng := 0 } []
        { address := "", lat := some 1, lng := 1 } false = 0 ∧
    segContrib { address := "", lat := some 1, lng := 0 }
        { address := "", lat := some 0, lng := 5 } = 0 :=
  ⟨equator_lat_dropped.1 _ [] _ false (Or.inr (Or.inl rfl)),
   equator_lat_dropped.2 _ _ (Or.inr (Or.inr (Or.inr rfl)))⟩

/-- Claim C2, amended: for coordinates whose latitudes are all present and
non-zero, the one-way computed distance is non-negative; the round-trip
distance is the rounding of twice the exact (unrounded) one-way sum —
doubling happens before rounding — and therefore can differ from twice the
rounded one-way distance, by at most 1 km. -/
theorem distance_nonneg_and_round_trip (o : Location) (s : List Location) (d : Location)
    (hvalid : ∀ p ∈ o :: s ++ [d], ¬ latFalsy p) :
    0 ≤ calculateTotalDistance o s d false ∧
    calculateTotalDistance o s d true = jsMathRound (2 * rawTotal (o :: s ++ [d])) ∧
    |calculateTotalDistance o s d true - 2 * calculateTotalDistance o s d false| ≤ 1 := by
  have ho : ¬ latFalsy o := hvalid o (by simp)
  have hd : ¬ latFalsy d := hvalid d (by simp)
  have hguard : ¬ (latFalsy o ∨ latFalsy d) := by tauto
  have h0 : 0 ≤ rawTotal (o :: s ++ [d]) := rawTotal_nonneg _
  have hfalse : calculateTotalDistance o s d false =
      ⌊rawTotal (o :: s ++ [d]) + 1 / 2⌋ := by
    unfold calculateTotalDistance
    rw [if_neg hguard, if_neg (by simp : ¬ (false = true))]
    rfl
  have htrue : calculateTotalDistance o s d true =
      ⌊2 * rawTotal (o :: s ++ [d]) + 1 / 2⌋ := by
    unfold calculateTotalDistance
    rw [if_neg hguard, if_pos (rfl : true = true)]
    unfold jsMathRound
    congr 1
    ring
  refine ⟨?_, ?_, ?_⟩
  · rw [hfalse]
    exact Int.le_floor.mpr (by push_cast; linarith)
  · rw [htrue]
    unfold jsMathRound
    rfl
  · rw [htrue, hfalse]
    exact floor_double_bound (rawTotal (o :: s ++ [d]))

/-- Witness for C2's amended theorem at two fully valid coordinates. -/
theorem distance_nonneg_and_round_trip_witness :
    (∀ p ∈ ({ address := "", lat := some 1, lng := 0 } : Location) :: [] ++
        [({ address := "", lat := some 2, lng := 3 } : Location)], ¬ latFalsy p) ∧
    (0 ≤ calculateTotalDistance { address := "", lat := some 1, lng := 0 } []
        { address := "", lat := some 2, lng := 3 } false ∧
      calculateTotalDistance { address := "", lat := some 1, lng := 0 } []
          { address := "", lat := some 2, lng := 3 } true =
        jsMathRound (2 * rawTotal
          (({ address := "", lat := some 1, lng := 0 } : Location) :: [] ++
            [({ address := "", lat := some 2, lng := 3 } : Location)])) ∧
      |calculateTotalDistance { address := "", lat := some 1, lng := 0 } []
            { address := "", lat := some 2, lng := 3 } true -
          2 * calculateTotalDistance { address := "", lat := some 1, lng := 0 } []
            { address := "", lat := some 2, lng := 3 } false| ≤ 1) := by
  have hv : ∀ p ∈ ({ address := "", lat := some 1, lng := 0 } : Location) :: [] ++
      [({ address := "", lat := some 2, lng := 3 } : Location)], ¬ latFalsy p := by
    intro p hp
    simp at hp
    rcases hp with rfl | rfl
    · simp [latFalsy]
    · simp [latFalsy]
  exact ⟨hv, distance_nonneg_and_round_trip _ _ _ hv⟩

/-- A point slightly south of the equator, used in a concrete route whose
one-way haversine length is about 0.3002 km. -/
noncomputable def southPointA : Location :=
  { address := "", lat := some (-(27 / 20000)), lng := 0 }

/-- The matching point slightly north of the equator on the same meridian. -/
noncomputable def northPointA : Location :=
  { address := "", lat := some (27 / 20000), lng := 0 }

lemma latFalsy_south : ¬ latFalsy southPointA := by
  unfold latFalsy southPointA
  rintro (h | h)
  · exact Option.noConfusion h
  · rw [Option.some_inj] at h
    norm_num at h

lemma latFalsy_north : ¬ latFalsy northPointA := by
  unfold latFalsy northPointA
  rintro (h | h)
  · exact Option.noConfusion h
  · rw [Option.some_inj] at h
    norm_num at h

lemma rawTotal_pairA :
    rawTotal [southPointA, northPointA] = 6371 * ((27 / 10000) * Real.pi / 180) := by
  have hπ := Real.pi_pos
  have h1 : rawTotal [southPointA, northPointA] = segContrib southPointA northPointA := by
    unfold rawTotal
    simp
  rw [h1]
  unfold segContrib
  rw [if_neg (not_or.mpr ⟨latFalsy_south, latFalsy_north⟩)]
  unfold southPointA northPointA
  rw [hav_same_lng (-(27 / 20000)) (27 / 20000) 0 "" "" (by norm_num)
    (by linarith [Real.pi_pos])]
  norm_num

/-- Claim C2, counterexample: on the meridian route from latitude
-0.00135° to latitude 0.00135° (one-way haversine length ≈ 0.3002 km) the
code reports a round-trip distance of 1 km but a one-way distance of 0 km,
so the round-trip distance is not exactly twice the one-way distance —
the doubling happens before the rounding. -/
theorem round_trip_not_exact_double_cex :
    calculateTotalDistance southPointA [] northPointA true = 1 ∧
    calculateTotalDistance southPointA [] northPointA false = 0 ∧
    calculateTotalDistance southPointA [] northPointA true ≠
      2 * calculateTotalDistance southPointA [] northPointA false := by
  have hπl : 3.141592 < Real.pi := Real.pi_gt_d6
  have hπu : Real.pi < 3.15 := Real.pi_lt_d2
  have hguard : ¬ (latFalsy southPointA ∨ latFalsy northPointA) :=
    not_or.mpr ⟨latFalsy_south, latFalsy_north⟩
  have hlist : (southPointA :: [] ++ [northPointA]) = [southPointA, northPointA] := rfl
  have htrue : calculateTotalDistance southPointA [] northPointA true = 1 := by
    unfold calculateTotalDistance
    rw [if_neg hguard, if_pos (rfl : (true : Bool) = true), hlist, rawTotal_pairA]
    unfold jsMathRound
    apply Int.floor_eq_iff.mpr
    constructor
    · push_cast
      linarith
    · push_cast
      linarith
  have hfalse : calculateTotalDistance southPointA [] northPointA false = 0 := by
    unfold calculateTotalDistance
    rw [if_neg hguard, if_neg (by simp : ¬ ((false : Bool) = true)), hlist, rawTotal_pairA]
    unfold jsMathRound
    apply Int.floor_eq_iff.mpr
    constructor
    · push_cast
      linarith
    · push_cast
      linarith
  refine ⟨htrue, hfalse, ?_⟩
  rw [htrue, hfalse]
  norm_num

open Classical in
/-- Claim C3, amended: the distance function returns 0 outright when the
origin or the destination has its latitude absent or equal to 0; otherwise
it sums the haversine great-circle distances (Earth radius 6371 km) over
consecutive pairs of `[origin, ...stops, destination]`, where any pair in
which either endpoint has its latitude absent or equal to 0 contributes a
zero-length segment (the longitude is never checked), the sum is doubled
if `isRoundTrip` is true, and the result is rounded to the nearest integer
kilometre. -/
theorem distance_formula (o : Location) (s : List Location) (d : Location) (r : Bool) :
    calculateTotalDistance o s d r =
      if latFalsy o ∨ latFalsy d then 0
      else jsMathRound ((if r then 2 else 1) * pairSum (o :: s ++ [d])) := by
  unfold calculateTotalDistance
  by_cases h : latFalsy o ∨ latFalsy d
  · rw [if_pos h, if_pos h]
  · rw [if_neg h, if_neg h, rawTotal_eq_pairSum]
    cases r
    · rw [if_neg (by simp : ¬ ((false : Bool) = true)),
        if_neg (by simp : ¬ ((false : Bool) = true)), one_mul]
    · rw [if_pos (rfl : (true : Bool) = true), if_pos (rfl : (true : Bool) = true)]
      unfold jsMathRound
      congr 1
      ring

/-- An origin with no latitude at all. -/
noncomputable def missingLatOrigin : Location := { address := "", lat := none, lng := 0 }

/-- A stop slightly south of the equator, on the route used against C3. -/
noncomputable def southStopB : Location :=
  { address := "", lat := some (-(9 / 2000)), lng := 0 }

/-- The destination slightly north of the equator on the same meridian;
the stop-to-destination leg is about 1.0008 km long. -/
noncomputable def northDestB : Location :=
  { address := "", lat := some (9 / 2000), lng := 0 }

/-- Claim C3, counterexample: with the origin's latitude missing but a
valid stop and destination 1 km apart, the claim's reading (skip only the
pairs touching the missing coordinate) yields 1 km, while the code returns
0 for the whole itinerary because of its outright guard on the origin. -/
theorem missing_origin_zeroes_distance_cex :
    calculateTotalDistance missingLatOrigin [southStopB] northDestB false = 0 ∧
    claimedDistance missingLatOrigin [southStopB] northDestB false = 1 ∧
    claimedDistance missingLatOrigin [southStopB] northDestB false ≠
      calculateTotalDistance missingLatOrigin [southStopB] northDestB false := by
  have hπl : 3.141592 < Real.pi := Real.pi_gt_d6
  have hπu : Real.pi < 3.15 := Real.pi_lt_d2
  have hnone : missingLatOrigin.lat = none := rfl
  have hm : latFalsy missingLatOrigin := Or.inl hnone
  have hcode : calculateTotalDistance missingLatOrigin [southStopB] northDestB false = 0 := by
    unfold calculateTotalDistance
    rw [if_pos (Or.inl hm)]
  have hOS : claimedSegContrib missingLatOrigin southStopB = 0 := by
    unfold claimedSegContrib
    rw [if_pos (Or.inl hnone)]
  have hSD : claimedSegContrib southStopB northDestB = hav southStopB northDestB := by
    unfold claimedSegContrib
    rw [if_neg (by
      rintro (h | h)
      · exact Option.noConfusion h
      · exact Option.noConfusion h)]
  have hhav : hav southStopB northDestB = 6371 * ((9 / 1000) * Real.pi / 180) := by
    unfold southStopB northDestB
    rw [hav_same_lng (-(9 / 2000)) (9 / 2000) 0 "" "" (by norm_num)
      (by linarith [Real.pi_pos])]
    norm_num
  have hsum : claimedPairSum [missingLatOrigin, southStopB, northDestB] =
      6371 * ((9 / 1000) * Real.pi / 180) := by
    simp only [claimedPairSum, hOS, hSD, hhav]
    ring
  have hclaim : claimedDistance missingLatOrigin [southStopB] northDestB false = 1 := by
    unfold claimedDistance
    rw [if_neg (by simp : ¬ ((false : Bool) = true)), one_mul]
    rw [show (missingLatOrigin :: [southStopB] ++ [northDestB]) =
      [missingLatOrigin, southStopB, northDestB] from rfl]
    rw [hsum]
    unfold jsMathRound
    apply Int.floor_eq_iff.mpr
    constructor
    · push_cast
      linarith
    · push_cast
      linarith
  refine ⟨hcode, hclaim, ?_⟩
  rw [hcode, hclaim]
  norm_num
